import Mathlib

/-!
Shallow embedding of `pkg/controller/networkpolicy/crd_utils.go` (Antrea network-policy
controller CRD conversion utilities), together with theorems about its behaviour.

Collaborators that live outside this file's source (the group store, the tier lister, the
CIDR parser, the group-reference resolver, the sync delegates and the update triggers) are
either taken as explicit parameters or modelled from the specification; such definitions
carry a doc comment saying so.
-/

namespace AntreaNP

/-! ## Data model -/

/-- metav1.LabelSelector (opaque at this layer: only carried around, never interpreted). -/
structure LabelSelector where
  matchLabels : List (String × String) := []
deriving DecidableEq, Repr

/-- v1alpha1.NamespacedName. -/
structure NamespacedName where
  nspace : String := ""
  name : String := ""
deriving DecidableEq, Repr

/-- intstr.IntOrString: a port value that is either numeric or a named port. -/
inductive IntOrString where
  | int (n : Int)
  | str (s : String)
deriving DecidableEq, Repr

/-- v1.Protocol (TCP/UDP/SCTP) as used in NetworkPolicyPort. -/
inductive K8sProtocol where
  | tcp
  | udp
  | sctp
deriving DecidableEq, Repr

/-- controlplane.Protocol. -/
inductive Protocol where
  | tcp
  | udp
  | sctp
  | icmp
  | igmp
deriving DecidableEq, Repr

/-- Modelled from the spec: `toAntreaProtocol` lives outside this file's source; it carries
the descriptor's protocol over, defaulting to TCP when unset. -/
def toAntreaProtocol : Option K8sProtocol → Protocol
  | none => Protocol.tcp
  | some K8sProtocol.tcp => Protocol.tcp
  | some K8sProtocol.udp => Protocol.udp
  | some K8sProtocol.sctp => Protocol.sctp

/-- v1alpha1.NetworkPolicyPort. -/
structure NetworkPolicyPort where
  protocol : Option K8sProtocol := none
  port : Option IntOrString := none
  endPort : Option Int := none
deriving DecidableEq, Repr

/-- v1alpha1.ICMPProtocol. -/
structure ICMPProtocol where
  icmpType : Option Int := none
  icmpCode : Option Int := none
deriving DecidableEq, Repr

/-- v1alpha1.IGMPProtocol. -/
structure IGMPProtocol where
  igmpType : Option Int := none
  groupAddress : String := ""
deriving DecidableEq, Repr

/-- v1alpha1.NetworkPolicyProtocol: at most one of ICMP / IGMP populated in practice,
but the code handles both being set. -/
structure NetworkPolicyProtocol where
  icmp : Option ICMPProtocol := none
  igmp : Option IGMPProtocol := none
deriving DecidableEq, Repr

/-- controlplane.Service. Unused fields keep their Go zero values. -/
structure Service where
  protocol : Option Protocol := none
  port : Option IntOrString := none
  endPort : Option Int := none
  icmpType : Option Int := none
  icmpCode : Option Int := none
  igmpType : Option Int := none
  groupAddress : String := ""
deriving DecidableEq, Repr

/-! ## Service Translator (`toAntreaServicesForCRD`, crd_utils.go lines 78-110) -/

/-- The Service built for one port descriptor (crd_utils.go lines 85-89). -/
def portToService (npPort : NetworkPolicyPort) : Service :=
  { protocol := some (toAntreaProtocol npPort.protocol)
    port := npPort.port
    endPort := npPort.endPort }

/-- `npPort.Port != nil && npPort.Port.Type == intstr.String` (crd_utils.go line 82). -/
def isNamedPort (npPort : NetworkPolicyPort) : Bool :=
  match npPort.port with
  | some (IntOrString.str _) => true
  | _ => false

/-- One iteration of the first loop of `toAntreaServicesForCRD` (lines 81-90). -/
def svcPortStep (acc : List Service × Bool) (npPort : NetworkPolicyPort) : List Service × Bool :=
  (acc.1 ++ [portToService npPort], acc.2 || isNamedPort npPort)

/-- One iteration of the second loop of `toAntreaServicesForCRD` (lines 91-108):
an ICMP append if ICMP is set, then an IGMP append if IGMP is set. -/
def svcProtocolStep (acc : List Service) (npProtocol : NetworkPolicyProtocol) : List Service :=
  let acc1 :=
    match npProtocol.icmp with
    | some icmp =>
        acc ++ [{ protocol := some Protocol.icmp
                  icmpType := icmp.icmpType
                  icmpCode := icmp.icmpCode }]
    | none => acc
  match npProtocol.igmp with
  | some igmp =>
      acc1 ++ [{ protocol := some Protocol.igmp
                 igmpType := igmp.igmpType
                 groupAddress := igmp.groupAddress }]
  | none => acc1

/-- `toAntreaServicesForCRD` (crd_utils.go lines 78-110). -/
def toAntreaServicesForCRD (npPorts : List NetworkPolicyPort)
    (npProtocols : List NetworkPolicyProtocol) : List Service × Bool :=
  let afterPorts := npPorts.foldl svcPortStep ([], false)
  (npProtocols.foldl svcProtocolStep afterPorts.1, afterPorts.2)

/-- Specification shape for protocol descriptors: the Services one descriptor yields. -/
def protocolToServices (npProtocol : NetworkPolicyProtocol) : List Service :=
  (match npProtocol.icmp with
   | some icmp =>
       [{ protocol := some Protocol.icmp
          icmpType := icmp.icmpType
          icmpCode := icmp.icmpCode }]
   | none => []) ++
  (match npProtocol.igmp with
   | some igmp =>
       [{ protocol := some Protocol.igmp
          igmpType := igmp.igmpType
          groupAddress := igmp.groupAddress }]
   | none => [])

/-! ## Peers, groups and controller state -/

/-- v1alpha1.IPBlock at the CRD layer: CIDR string only (no Except field, crd_utils.go line 121). -/
structure CrdIPBlock where
  cidr : String := ""
deriving DecidableEq, Repr

/-- controlplane.IPNet: a parsed network (address value plus prefix length). -/
structure IPNet where
  ip : Nat := 0
  prefixLength : Nat := 0
deriving DecidableEq, Repr

/-- controlplane.IPBlock. -/
structure IPBlock where
  cidr : IPNet := {}
  except : List IPNet := []
deriving DecidableEq, Repr

/-- v1alpha1.NetworkPolicyPeer: mutually-exclusive optional fields, dispatched by the
sequential if-else chain of `toAntreaPeerForCRD`. -/
structure NetworkPolicyPeer where
  podSelector : Option LabelSelector := none
  namespaceSelector : Option LabelSelector := none
  externalEntitySelector : Option LabelSelector := none
  ipBlock : Option CrdIPBlock := none
  group : String := ""
  fqdn : String := ""
  serviceAccount : Option NamespacedName := none
  nodeSelector : Option LabelSelector := none
deriving DecidableEq, Repr

/-- controlplane.ServiceReference. -/
structure ServiceReference where
  nspace : String := ""
  name : String := ""
deriving DecidableEq, Repr

/-- controlplane.NetworkPolicyPeer. -/
structure ControlplanePeer where
  addressGroups : List String := []
  ipBlocks : List IPBlock := []
  fqdns : List String := []
  toServices : List ServiceReference := []
deriving DecidableEq, Repr

/-- controlplane.Direction. -/
inductive Direction where
  | directionIn
  | directionOut
deriving DecidableEq, Repr

/-- The part of metav1.Object that `toAntreaPeerForCRD` consults (GetNamespace/GetName). -/
structure ObjectMeta where
  nspace : String := ""
  name : String := ""
deriving DecidableEq, Repr

/-- controlplane.GroupReference inside an internal Group's SourceReference. -/
structure GroupReference where
  nspace : String := ""
  name : String := ""
deriving DecidableEq, Repr

/-- antreatypes.Group (the internal Group), restricted to the fields this file consults. -/
structure Group where
  uid : String := ""
  sourceReference : GroupReference := {}
deriving DecidableEq, Repr

/-- antreatypes.AppliedToGroup, restricted to the fields this file sets. -/
structure AppliedToGroup where
  uid : String := ""
  name : String := ""
  service : Option ServiceReference := none
deriving DecidableEq, Repr

/-- antreatypes.AddressGroup, restricted to the fields this file sets. -/
structure AddressGroup where
  uid : String := ""
  name : String := ""
deriving DecidableEq, Repr

/-- The controller's stores and work queues, as explicit state. Stores are association
lists keyed by group key; queues record enqueue calls in order. -/
structure ControllerState where
  appliedToGroupStore : List (String × AppliedToGroup) := []
  addressGroupStore : List (String × AddressGroup) := []
  appliedToGroupQueue : List String := []
  addressGroupQueue : List String := []
deriving DecidableEq, Repr

/-- The selector combination handed to the Group Identity Normalizer. -/
structure SelectorSpec where
  nspace : String := ""
  podSelector : Option LabelSelector := none
  namespaceSelector : Option LabelSelector := none
  externalEntitySelector : Option LabelSelector := none
  nodeSelector : Option LabelSelector := none
deriving DecidableEq, Repr

/-- A selector rendered into the normalized-name string. -/
def selectorText : Option LabelSelector → String
  | none => "nil"
  | some sel =>
      "labels(" ++ String.intercalate "," (sel.matchLabels.map (fun kv => kv.1 ++ "=" ++ kv.2)) ++ ")"

/-- Modelled from the spec: the Group Identity Normalizer's canonical-key computation
(content-addressed: identical selector combinations yield identical keys, independent of
call order or history). The repository's normalized-name derivation lives outside this
file's source. -/
def normalizedKeyOf (sel : SelectorSpec) : String :=
  "ns=" ++ sel.nspace ++
  ";pod=" ++ selectorText sel.podSelector ++
  ";nsSel=" ++ selectorText sel.namespaceSelector ++
  ";ee=" ++ selectorText sel.externalEntitySelector ++
  ";node=" ++ selectorText sel.nodeSelector

/-- Modelled from the spec: `createAddressGroup`, the Group Identity Normalizer
(GetOrCreate) for AddressGroups, which lives outside this file's source. It computes the
canonical key, returns it unchanged when the key is already stored, and otherwise persists
a new AddressGroup under that key and enqueues it for membership computation. -/
def createAddressGroup (st : ControllerState) (nspace : String)
    (podSelector namespaceSelector externalEntitySelector nodeSelector : Option LabelSelector) :
    String × ControllerState :=
  let key := normalizedKeyOf
    { nspace := nspace
      podSelector := podSelector
      namespaceSelector := namespaceSelector
      externalEntitySelector := externalEntitySelector
      nodeSelector := nodeSelector }
  match st.addressGroupStore.lookup key with
  | some _ => (key, st)
  | none =>
      (key, { st with
        addressGroupStore := (key, { uid := key, name := key }) :: st.addressGroupStore
        addressGroupQueue := st.addressGroupQueue ++ [key] })

/-- Modelled from the spec: `serviceAccountNameToPodSelector` lives outside this file's
source; it synthesizes a Pod selector from the ServiceAccount name convention. -/
def serviceAccountNameToPodSelector (saName : String) : Option LabelSelector :=
  some { matchLabels := [("internal.antrea.io/service-account", saName)] }

/-- `matchAllPodsPeerCrd` (crd_utils.go lines 38-40): a CRD peer whose only populated field
is an empty namespace selector, matching all Pods from all Namespaces. -/
def matchAllPodsPeerCrd : NetworkPolicyPeer :=
  { namespaceSelector := some {} }

/-- Modelled from the spec: `matchAllPeer`, the fixed match-all sentinel declared elsewhere
in the repository — no AddressGroups, a single IPBlock 0.0.0.0/0 with empty Except. -/
def matchAllPeer : ControlplanePeer :=
  { ipBlocks := [{ cidr := { ip := 0, prefixLength := 0 }, except := [] }] }

/-! ## Peer Resolver (`toAntreaPeerForCRD`, crd_utils.go lines 130-183) -/

/-- `toAntreaIPBlockForCRD` (crd_utils.go lines 113-125), parametrized by the CIDR parser
`cidrStrToIPNet`, which lives outside this file's source. -/
def toAntreaIPBlockForCRD (cidrStrToIPNet : String → Option IPNet) (ipBlock : CrdIPBlock) :
    Option IPBlock :=
  match cidrStrToIPNet ipBlock.cidr with
  | none => none
  | some ipNet => some { cidr := ipNet, except := [] }

/-- The three accumulators of `toAntreaPeerForCRD`'s peer loop. -/
structure PeerAcc where
  addressGroups : List String := []
  ipBlocks : List IPBlock := []
  fqdns : List String := []
deriving DecidableEq, Repr

/-- The peer loop of `toAntreaPeerForCRD` (crd_utils.go lines 152-181): one dispatch per
peer by populated variant, in input order, threading controller state left to right.
`resolver` stands for `processRefGroupOrClusterGroup`, delegated per the spec. -/
def peerLoop (cidrStrToIPNet : String → Option IPNet)
    (resolver : String → String → String × List IPBlock) (npNamespace : String) :
    ControllerState → List NetworkPolicyPeer → PeerAcc × ControllerState
  | st, [] => ({}, st)
  | st, peer :: rest =>
    match peer.ipBlock with
    | some ib =>
        (match toAntreaIPBlockForCRD cidrStrToIPNet ib with
         | none => peerLoop cidrStrToIPNet resolver npNamespace st rest
         | some blk =>
             let r := peerLoop cidrStrToIPNet resolver npNamespace st rest
             ({ r.1 with ipBlocks := blk :: r.1.ipBlocks }, r.2))
    | none =>
      if peer.group ≠ "" then
        let g := resolver peer.group npNamespace
        let r := peerLoop cidrStrToIPNet resolver npNamespace st rest
        ({ r.1 with
            addressGroups := if g.1 ≠ "" then g.1 :: r.1.addressGroups else r.1.addressGroups
            ipBlocks := g.2 ++ r.1.ipBlocks }, r.2)
      else if peer.fqdn ≠ "" then
        let r := peerLoop cidrStrToIPNet resolver npNamespace st rest
        ({ r.1 with fqdns := peer.fqdn :: r.1.fqdns }, r.2)
      else
        match peer.serviceAccount with
        | some sa =>
            let c := createAddressGroup st sa.nspace
              (serviceAccountNameToPodSelector sa.name) none none none
            let r := peerLoop cidrStrToIPNet resolver npNamespace c.2 rest
            ({ r.1 with addressGroups := c.1 :: r.1.addressGroups }, r.2)
        | none =>
          match peer.nodeSelector with
          | some nodeSel =>
              let c := createAddressGroup st "" none none none (some nodeSel)
              let r := peerLoop cidrStrToIPNet resolver npNamespace c.2 rest
              ({ r.1 with addressGroups := c.1 :: r.1.addressGroups }, r.2)
          | none =>
              let c := createAddressGroup st npNamespace peer.podSelector
                peer.namespaceSelector peer.externalEntitySelector none
              let r := peerLoop cidrStrToIPNet resolver npNamespace c.2 rest
              ({ r.1 with addressGroups := c.1 :: r.1.addressGroups }, r.2)

/-- Assembling the loop accumulators into the returned peer (crd_utils.go line 182). -/
def assemblePeer (r : PeerAcc × ControllerState) : ControlplanePeer × ControllerState :=
  ({ addressGroups := r.1.addressGroups, ipBlocks := r.1.ipBlocks, fqdns := r.1.fqdns }, r.2)

/-- `toAntreaPeerForCRD` (crd_utils.go lines 130-183). An empty peer list yields the
match-all sentinel (ingress, or no named port) or the sentinel with the all-Pods
AddressGroup appended (egress with a named port); otherwise the peer loop runs. -/
def toAntreaPeerForCRD (cidrStrToIPNet : String → Option IPNet)
    (resolver : String → String → String × List IPBlock)
    (st : ControllerState) (peers : List NetworkPolicyPeer) (np : ObjectMeta)
    (dir : Direction) (namedPortExists : Bool) : ControlplanePeer × ControllerState :=
  if peers.length = 0 then
    if dir = Direction.directionIn ∨ namedPortExists = false then
      (matchAllPeer, st)
    else
      let c := createAddressGroup st "" matchAllPodsPeerCrd.podSelector
        matchAllPodsPeerCrd.namespaceSelector none none
      ({ matchAllPeer with addressGroups := [c.1] }, c.2)
  else
    assemblePeer (peerLoop cidrStrToIPNet resolver np.nspace st peers)

/-- `toNamespacedPeerForCRD`'s loop (crd_utils.go lines 190-193): each peer's Pod selector
and external-entity selector are resolved against the single explicit Namespace; the
namespace-selector, service-account and node-selector variants are not consulted. -/
def namespacedPeerLoop (nspace : String) :
    ControllerState → List NetworkPolicyPeer → List String × ControllerState
  | st, [] => ([], st)
  | st, peer :: rest =>
      let c := createAddressGroup st nspace peer.podSelector none
        peer.externalEntitySelector none
      let r := namespacedPeerLoop nspace c.2 rest
      (c.1 :: r.1, r.2)

/-- `toNamespacedPeerForCRD` (crd_utils.go lines 188-195). -/
def toNamespacedPeerForCRD (st : ControllerState) (peers : List NetworkPolicyPeer)
    (nspace : String) : ControlplanePeer × ControllerState :=
  let r := namespacedPeerLoop nspace st peers
  ({ addressGroups := r.1 }, r.2)

/-! ## Get-or-create for internal Groups (crd_utils.go lines 220-239 and 268-286) -/

/-- `createAppliedToGroupForInternalGroup` (crd_utils.go lines 220-239), parametrized by
`store.GroupKeyFunc` (deterministic key derivation, outside this file's source; a failure
yields the empty key). -/
def createAppliedToGroupForInternalGroup (groupKeyFunc : Group → Option String)
    (st : ControllerState) (intGrp : Group) : String × ControllerState :=
  match groupKeyFunc intGrp with
  | none => ("", st)
  | some key =>
    match st.appliedToGroupStore.lookup key with
    | some _ => (key, st)
    | none =>
        (key, { st with
          appliedToGroupStore :=
            (key, { uid := intGrp.uid, name := key }) :: st.appliedToGroupStore
          appliedToGroupQueue := st.appliedToGroupQueue ++ [key] })

/-- `createAddressGroupForInternalGroup` (crd_utils.go lines 268-286). Note: unlike the
AppliedToGroup variant, it creates without enqueueing. -/
def createAddressGroupForInternalGroup (groupKeyFunc : Group → Option String)
    (st : ControllerState) (intGrp : Group) : String × ControllerState :=
  match groupKeyFunc intGrp with
  | none => ("", st)
  | some key =>
    match st.addressGroupStore.lookup key with
    | some _ => (key, st)
    | none =>
        (key, { st with
          addressGroupStore :=
            (key, { uid := intGrp.uid, name := key }) :: st.addressGroupStore })

/-! ## Tier Priority Resolver (`getTierPriority`, crd_utils.go lines 291-311) -/

/-- A Tier CRD, restricted to its priority. -/
structure Tier where
  priority : Int := 0
deriving DecidableEq, Repr

/-- Modelled from the spec: the fixed default priority (the lowest-priority Application
tier), declared elsewhere in the repository. -/
def DefaultTierPriority : Int := 250

/-- `getTierPriority` (crd_utils.go lines 291-311), parametrized by `staticTierSet` (the
fixed legacy static-tier name set) and the tier lister, both outside this file's source.
Membership in the static set is an exact (case-sensitive) check; a member is lower-cased
before lookup; a lookup miss falls back to the default priority. -/
def getTierPriority (staticTierSet : List String) (tierLister : String → Option Tier)
    (tier : String) : Int :=
  if tier = "" then DefaultTierPriority
  else
    let lookupName := if tier ∈ staticTierSet then tier.toLower else tier
    match tierLister lookupName with
    | none => DefaultTierPriority
    | some t => t.priority

/-! ## Internal Group Sync (`syncInternalGroup`, crd_utils.go lines 322-339) -/

/-- The observable side effects of `syncInternalGroup`, in execution order. -/
inductive SyncEvent where
  | triggerANPUpdates (key : String)
  | triggerCNPUpdates (key : String)
  | triggerParentGroupSync (key : String)
  | deleteGroup (key : String)
  | syncNamespacedGroup (key : String)
  | syncClusterGroup (key : String)
deriving DecidableEq, Repr

/-- Occurrence count of one event in an event trace. -/
def countEvent (e : SyncEvent) : List SyncEvent → Nat
  | [] => 0
  | x :: rest => (if x = e then 1 else 0) + countEvent e rest

/-- `syncInternalGroup` (crd_utils.go lines 322-339). The store and the two sync delegates
(`syncInternalNamespacedGroup`, `syncInternalClusterGroup`, outside this file's source) are
parameters; the three deferred triggers run after the body on every path, in LIFO order. -/
def syncInternalGroup (internalGroupStore : String → Option Group)
    (syncNamespacedDelegate syncClusterDelegate : Group → Except String Unit)
    (key : String) : Except String Unit × List SyncEvent :=
  let body : Except String Unit × List SyncEvent :=
    match internalGroupStore key with
    | none => (Except.ok (), [SyncEvent.deleteGroup key])
    | some grp =>
        if grp.sourceReference.nspace ≠ "" then
          (syncNamespacedDelegate grp, [SyncEvent.syncNamespacedGroup key])
        else
          (syncClusterDelegate grp, [SyncEvent.syncClusterGroup key])
  (body.1, body.2 ++
    [SyncEvent.triggerParentGroupSync key, SyncEvent.triggerCNPUpdates key,
     SyncEvent.triggerANPUpdates key])

/-! ## Status comparison (`NetworkPolicyStatusEqual`, crd_utils.go lines 47-59) -/

/-- v1alpha1.NetworkPolicyCondition, with a comparable timestamp. -/
structure NetworkPolicyCondition where
  condType : String := ""
  status : String := ""
  lastTransitionTime : Int := 0
  reason : String := ""
  message : String := ""
deriving DecidableEq, Repr

/-- v1alpha1.NetworkPolicyStatus. -/
structure NetworkPolicyStatus where
  phase : String := ""
  observedGeneration : Int := 0
  currentNodesRealized : Int := 0
  desiredNodesRealized : Int := 0
  conditions : List NetworkPolicyCondition := []
deriving DecidableEq, Repr

/-- The fixed timestamp both conditions are normalized to before comparison
(crd_utils.go lines 49-50: metav1.Date(2018, 1, 1, ...)). -/
def semanticFixedTime : Int := 20180101

/-- The custom equality registered with `semanticIgnoreLastTransitionTime`
(crd_utils.go lines 48-52): overwrite both LastTransitionTime fields with the same fixed
date, then compare structurally. -/
def conditionEqualIgnoringTime (a b : NetworkPolicyCondition) : Bool :=
  decide ({ a with lastTransitionTime := semanticFixedTime }
            = { b with lastTransitionTime := semanticFixedTime })

/-- Elementwise slice equality, as k8s semantic DeepEqual applies the registered
condition equality to condition slices. -/
def conditionsDeepEqual : List NetworkPolicyCondition → List NetworkPolicyCondition → Bool
  | [], [] => true
  | a :: restA, b :: restB => conditionEqualIgnoringTime a b && conditionsDeepEqual restA restB
  | _, _ => false

/-- Models k8s `conversion.Equalities.DeepEqual` on NetworkPolicyStatus with the
registered condition equality: structural deep equality on every field, using the custom
comparison for conditions. -/
def networkPolicyStatusDeepEqual (a b : NetworkPolicyStatus) : Bool :=
  decide (a.phase = b.phase) && decide (a.observedGeneration = b.observedGeneration) &&
  decide (a.currentNodesRealized = b.currentNodesRealized) &&
  decide (a.desiredNodesRealized = b.desiredNodesRealized) &&
  conditionsDeepEqual a.conditions b.conditions

/-- `NetworkPolicyStatusEqual` (crd_utils.go lines 57-59). -/
def NetworkPolicyStatusEqual (oldStatus newStatus : NetworkPolicyStatus) : Bool :=
  networkPolicyStatusDeepEqual oldStatus newStatus

/-- Spec-side relation on conditions: all fields agree except LastTransitionTime. -/
def conditionAgreesExceptTime (a b : NetworkPolicyCondition) : Prop :=
  a.condType = b.condType ∧ a.status = b.status ∧ a.reason = b.reason ∧ a.message = b.message

/-- Spec-side relation on statuses: the records differ at most in their conditions'
LastTransitionTime fields. -/
def statusAgreesExceptTime (a b : NetworkPolicyStatus) : Prop :=
  a.phase = b.phase ∧ a.observedGeneration = b.observedGeneration ∧
  a.currentNodesRealized = b.currentNodesRealized ∧
  a.desiredNodesRealized = b.desiredNodesRealized ∧
  List.Forall₂ conditionAgreesExceptTime a.conditions b.conditions

/-! ## Concrete collaborators used by witnesses and counterexamples -/

/-- A concrete CIDR parser accepting exactly one address, for witnesses. -/
def cidrParseCx : String → Option IPNet :=
  fun s => if s = "10.0.0.0/8" then some { ip := 167772160, prefixLength := 8 } else none

/-- A concrete group-reference resolver that resolves nothing, for witnesses. -/
def refResolverCx : String → String → String × List IPBlock :=
  fun _ _ => ("", [])

/-- A concrete tier lister knowing only the lower-case "emergency" tier, for the
tier-priority counterexample and witness. -/
def tierListerCx : String → Option Tier :=
  fun s => if s = "emergency" then some { priority := 5 } else none

/-! ## Helper lemmas -/

/-- The key returned by the normalizer depends only on the selector combination,
never on the store contents. -/
lemma createAddressGroup_key (st : ControllerState) (nspace : String)
    (podSelector namespaceSelector externalEntitySelector nodeSelector : Option LabelSelector) :
    (createAddressGroup st nspace podSelector namespaceSelector
        externalEntitySelector nodeSelector).1
      = normalizedKeyOf
          { nspace := nspace
            podSelector := podSelector
            namespaceSelector := namespaceSelector
            externalEntitySelector := externalEntitySelector
            nodeSelector := nodeSelector } := by
  unfold createAddressGroup
  cases h : (st.addressGroupStore.lookup (normalizedKeyOf
      { nspace := nspace
        podSelector := podSelector
        namespaceSelector := namespaceSelector
        externalEntitySelector := externalEntitySelector
        nodeSelector := nodeSelector })) <;> simp [h]

lemma foldl_svcPortStep (l : List NetworkPolicyPort) :
    ∀ (acc : List Service) (b : Bool),
      l.foldl svcPortStep (acc, b) = (acc ++ l.map portToService, b || l.any isNamedPort) := by
  induction l with
  | nil => intro acc b; simp
  | cons p rest ih =>
      intro acc b
      simp [svcPortStep, ih, Bool.or_assoc]

lemma svcProtocolStep_eq (acc : List Service) (p : NetworkPolicyProtocol) :
    svcProtocolStep acc p = acc ++ protocolToServices p := by
  cases h1 : p.icmp <;> cases h2 : p.igmp <;>
    simp [svcProtocolStep, protocolToServices, h1, h2]

lemma foldl_svcProtocolStep (l : List NetworkPolicyProtocol) :
    ∀ (acc : List Service),
      l.foldl svcProtocolStep acc = acc ++ l.flatMap protocolToServices := by
  induction l with
  | nil => intro acc; simp
  | cons p rest ih =>
      intro acc
      simp [svcProtocolStep_eq, ih]

lemma isNamedPort_iff (p : NetworkPolicyPort) :
    isNamedPort p = true ↔ ∃ s, p.port = some (IntOrString.str s) := by
  cases h : p.port with
  | none => simp [isNamedPort, h]
  | some v => cases v <;> simp [isNamedPort, h]

/-! ## Claim theorems -/

/-- C5: `toAntreaServicesForCRD` produces exactly one Service per input port descriptor
carrying its protocol, port and end-port, with all port-derived Services preceding
protocol-derived Services and input order preserved within each kind; and its returned
named-port flag is true iff at least one port descriptor's port value is a string name. -/
theorem toAntreaServicesForCRD_correct (npPorts : List NetworkPolicyPort)
    (npProtocols : List NetworkPolicyProtocol) :
    (toAntreaServicesForCRD npPorts npProtocols).1
        = npPorts.map portToService ++ npProtocols.flatMap protocolToServices ∧
    ((toAntreaServicesForCRD npPorts npProtocols).2 = true ↔
        ∃ p ∈ npPorts, ∃ s, p.port = some (IntOrString.str s)) ∧
    ∀ p : NetworkPolicyPort,
      (portToService p).protocol = some (toAntreaProtocol p.protocol) ∧
      (portToService p).port = p.port ∧ (portToService p).endPort = p.endPort := by
  refine ⟨?_, ?_, ?_⟩
  · simp [toAntreaServicesForCRD, foldl_svcPortStep, foldl_svcProtocolStep]
  · simp [toAntreaServicesForCRD, foldl_svcPortStep, List.any_eq_true, isNamedPort_iff]
  · intro p
    exact ⟨rfl, rfl, rfl⟩

/-- C10: a single protocol descriptor with both its ICMP and IGMP fields populated yields
two Service entries — one ICMP Service immediately followed by one IGMP Service — rather
than one entry per descriptor. -/
theorem toAntreaServicesForCRD_icmp_igmp (npPorts : List NetworkPolicyPort)
    (icmp : ICMPProtocol) (igmp : IGMPProtocol) :
    toAntreaServicesForCRD npPorts [{ icmp := some icmp, igmp := some igmp }]
      = (npPorts.map portToService ++
          [{ protocol := some Protocol.icmp, icmpType := icmp.icmpType,
             icmpCode := icmp.icmpCode },
           { protocol := some Protocol.igmp, igmpType := igmp.igmpType,
             groupAddress := igmp.groupAddress }],
         npPorts.any isNamedPort) := by
  simp [toAntreaServicesForCRD, foldl_svcPortStep, svcProtocolStep]

lemma conditionEqualIgnoringTime_iff (a b : NetworkPolicyCondition) :
    conditionEqualIgnoringTime a b = true ↔ conditionAgreesExceptTime a b := by
  cases a
  cases b
  simp only [conditionEqualIgnoringTime, conditionAgreesExceptTime, decide_eq_true_eq,
    NetworkPolicyCondition.mk.injEq]
  tauto

lemma conditionsDeepEqual_iff :
    ∀ l1 l2, conditionsDeepEqual l1 l2 = true ↔
      List.Forall₂ conditionAgreesExceptTime l1 l2
  | [], [] => by simp [conditionsDeepEqual]
  | [], _ :: _ => by simp [conditionsDeepEqual]
  | _ :: _, [] => by simp [conditionsDeepEqual]
  | a :: restA, b :: restB => by
      simp [conditionsDeepEqual, conditionEqualIgnoringTime_iff,
        conditionsDeepEqual_iff restA restB, List.forall₂_cons]

/-- C8: `NetworkPolicyStatusEqual` returns true exactly when the two status records agree
on every field other than their conditions' LastTransitionTime; in particular it is true
for every pair differing only in LastTransitionTime, and false for every pair differing in
any other field. -/
theorem networkPolicyStatusEqual_iff (a b : NetworkPolicyStatus) :
    NetworkPolicyStatusEqual a b = true ↔ statusAgreesExceptTime a b := by
  simp only [NetworkPolicyStatusEqual, networkPolicyStatusDeepEqual, statusAgreesExceptTime,
    Bool.and_eq_true, decide_eq_true_eq, conditionsDeepEqual_iff]
  tauto

/-- C4: on every exit path of `syncInternalGroup` — group missing, namespaced-group sync
taken, cluster-group sync taken, either delegate succeeding or failing — the ANP update
trigger, the CNP update trigger and the parent-group sync trigger each fire exactly once. -/
theorem syncInternalGroup_fanout (internalGroupStore : String → Option Group)
    (syncNamespacedDelegate syncClusterDelegate : Group → Except String Unit)
    (key : String) :
    countEvent (SyncEvent.triggerANPUpdates key)
        (syncInternalGroup internalGroupStore syncNamespacedDelegate
          syncClusterDelegate key).2 = 1 ∧
    countEvent (SyncEvent.triggerCNPUpdates key)
        (syncInternalGroup internalGroupStore syncNamespacedDelegate
          syncClusterDelegate key).2 = 1 ∧
    countEvent (SyncEvent.triggerParentGroupSync key)
        (syncInternalGroup internalGroupStore syncNamespacedDelegate
          syncClusterDelegate key).2 = 1 := by
  unfold syncInternalGroup
  cases h : internalGroupStore key with
  | none => simp [countEvent]
  | some grp =>
      by_cases hn : grp.sourceReference.nspace ≠ "" <;> simp [hn, countEvent]

/-- C1: get-or-create of a group is idempotent. When the key derivation succeeds, both
`createAppliedToGroupForInternalGroup` and `createAddressGroupForInternalGroup` return the
derived key, and a second call with the same internal group returns the same key and
leaves the state untouched: no store Create and no enqueue. -/
theorem createForInternalGroup_idempotent (groupKeyFunc : Group → Option String)
    (st : ControllerState) (intGrp : Group) (key : String)
    (h : groupKeyFunc intGrp = some key) :
    (createAppliedToGroupForInternalGroup groupKeyFunc st intGrp).1 = key ∧
    createAppliedToGroupForInternalGroup groupKeyFunc
        (createAppliedToGroupForInternalGroup groupKeyFunc st intGrp).2 intGrp
      = (key, (createAppliedToGroupForInternalGroup groupKeyFunc st intGrp).2) ∧
    (createAddressGroupForInternalGroup groupKeyFunc st intGrp).1 = key ∧
    createAddressGroupForInternalGroup groupKeyFunc
        (createAddressGroupForInternalGroup groupKeyFunc st intGrp).2 intGrp
      = (key, (createAddressGroupForInternalGroup groupKeyFunc st intGrp).2) := by
  refine ⟨?_, ?_, ?_, ?_⟩
  · simp only [createAppliedToGroupForInternalGroup, h]
    cases hl : st.appliedToGroupStore.lookup key <;> simp [hl]
  · simp only [createAppliedToGroupForInternalGroup, h]
    cases hl : st.appliedToGroupStore.lookup key with
    | some v => simp [hl]
    | none => simp [hl, List.lookup]
  · simp only [createAddressGroupForInternalGroup, h]
    cases hl : st.addressGroupStore.lookup key <;> simp [hl]
  · simp only [createAddressGroupForInternalGroup, h]
    cases hl : st.addressGroupStore.lookup key with
    | some v => simp [hl]
    | none => simp [hl, List.lookup]

/-- Witness for C1 at a concrete key function, state and group. -/
theorem createForInternalGroup_idempotent_witness :
    (createAppliedToGroupForInternalGroup (fun _ => some "k") {} {}).1 = "k" ∧
    createAppliedToGroupForInternalGroup (fun _ => some "k")
        (createAppliedToGroupForInternalGroup (fun _ => some "k") {} {}).2 {}
      = ("k", (createAppliedToGroupForInternalGroup (fun _ => some "k") {} {}).2) ∧
    (createAddressGroupForInternalGroup (fun _ => some "k") {} {}).1 = "k" ∧
    createAddressGroupForInternalGroup (fun _ => some "k")
        (createAddressGroupForInternalGroup (fun _ => some "k") {} {}).2 {}
      = ("k", (createAddressGroupForInternalGroup (fun _ => some "k") {} {}).2) :=
  createForInternalGroup_idempotent (fun _ => some "k") {} {} "k" rfl

/-- C3: for an empty peer list, if the direction is ingress or no named port exists,
`toAntreaPeerForCRD` returns the fixed match-all sentinel unchanged — no AddressGroups,
exactly one IPBlock 0.0.0.0/0 with empty Except, no FQDNs — and touches no state. -/
theorem toAntreaPeerForCRD_empty_matchAll (parse : String → Option IPNet)
    (resolver : String → String → String × List IPBlock) (st : ControllerState)
    (np : ObjectMeta) (dir : Direction) (namedPortExists : Bool)
    (h : dir = Direction.directionIn ∨ namedPortExists = false) :
    toAntreaPeerForCRD parse resolver st [] np dir namedPortExists = (matchAllPeer, st) ∧
    matchAllPeer
      = { addressGroups := []
          ipBlocks := [{ cidr := { ip := 0, prefixLength := 0 }, except := [] }]
          fqdns := []
          toServices := [] } := by
  refine ⟨?_, rfl⟩
  simp [toAntreaPeerForCRD, h]

/-- Witness for C3 at a concrete parser, resolver, state and policy (ingress). -/
theorem toAntreaPeerForCRD_empty_matchAll_witness :
    toAntreaPeerForCRD cidrParseCx refResolverCx {} [] {} Direction.directionIn true
      = (matchAllPeer, {}) ∧
    matchAllPeer
      = { addressGroups := []
          ipBlocks := [{ cidr := { ip := 0, prefixLength := 0 }, except := [] }]
          fqdns := []
          toServices := [] } :=
  toAntreaPeerForCRD_empty_matchAll cidrParseCx refResolverCx {} {}
    Direction.directionIn true (Or.inl rfl)

/-- C2 counterexample: for the empty peer list with egress direction and
namedPortExists = true, the returned peer's IPBlocks is NOT empty (it inherits the
sentinel's 0.0.0.0/0 block), refuting the claim at a concrete input. -/
theorem toAntreaPeerForCRD_empty_egress_namedPort_cx :
    (toAntreaPeerForCRD cidrParseCx refResolverCx {} []
        { nspace := "default", name := "np" } Direction.directionOut true).1.ipBlocks
      ≠ [] := by
  simp [toAntreaPeerForCRD, matchAllPeer]

/-- C2 (amended): for an empty peer list with egress direction and namedPortExists = true,
the returned peer's AddressGroups has exactly one entry — the key of the group matching
all Pods in all Namespaces — and its IPBlocks is the sentinel's single 0.0.0.0/0 block
(inherited from `matchAllPeer`, not empty); FQDNs stay empty. -/
theorem toAntreaPeerForCRD_empty_egress_namedPort (parse : String → Option IPNet)
    (resolver : String → String → String × List IPBlock) (st : ControllerState)
    (np : ObjectMeta) :
    (toAntreaPeerForCRD parse resolver st [] np Direction.directionOut true).1.addressGroups
        = [normalizedKeyOf { nspace := "", namespaceSelector := some {} }] ∧
    (toAntreaPeerForCRD parse resolver st [] np Direction.directionOut true).1.ipBlocks
        = [{ cidr := { ip := 0, prefixLength := 0 }, except := [] }] ∧
    (toAntreaPeerForCRD parse resolver st [] np Direction.directionOut true).1.fqdns
        = [] ∧
    (toAntreaPeerForCRD parse resolver st [] np Direction.directionOut true).2
        = (createAddressGroup st "" none (some {}) none none).2 := by
  refine ⟨?_, ?_, ?_, ?_⟩ <;>
    simp [toAntreaPeerForCRD, matchAllPeer, matchAllPodsPeerCrd, createAddressGroup_key]

/-- C7: a peer whose IPBlock CIDR fails to parse is dropped — the loop result on any list
containing it equals the result on the list without it, so every remaining peer is still
processed and the whole rule is never aborted; a peer whose CIDR parses contributes
exactly one IPBlock with that CIDR and empty Except; and for every non-empty peer list
`toAntreaPeerForCRD` is exactly the assembled peer loop. -/
theorem toAntreaPeerForCRD_cidr_peer_local (parse : String → Option IPNet)
    (resolver : String → String → String × List IPBlock)
    (st : ControllerState) (np : ObjectMeta) (dir : Direction) (namedPortExists : Bool)
    (badIB goodIB : CrdIPBlock) (net : IPNet)
    (pre post rest peers : List NetworkPolicyPeer)
    (hbad : parse badIB.cidr = none) (hgood : parse goodIB.cidr = some net) :
    peerLoop parse resolver np.nspace st (pre ++ { ipBlock := some badIB } :: post)
      = peerLoop parse resolver np.nspace st (pre ++ post) ∧
    peerLoop parse resolver np.nspace st ({ ipBlock := some goodIB } :: rest)
      = ({ (peerLoop parse resolver np.nspace st rest).1 with
            ipBlocks := { cidr := net, except := [] }
              :: (peerLoop parse resolver np.nspace st rest).1.ipBlocks },
         (peerLoop parse resolver np.nspace st rest).2) ∧
    (peers ≠ [] →
      toAntreaPeerForCRD parse resolver st peers np dir namedPortExists
        = assemblePeer (peerLoop parse resolver np.nspace st peers)) := by
  refine ⟨?_, ?_, ?_⟩
  · induction pre generalizing st with
    | nil => simp [peerLoop, toAntreaIPBlockForCRD, hbad]
    | cons p pre ih =>
        simp only [List.cons_append, peerLoop]
        repeat' split
        all_goals simp only [List.append_eq, ih]
  · simp [peerLoop, toAntreaIPBlockForCRD, hgood]
  · intro hne
    rw [toAntreaPeerForCRD, if_neg]
    simp [hne]

/-- Witness for C7 at a concrete parser (accepting only 10.0.0.0/8), a malformed CIDR, a
well-formed CIDR and a concrete remaining peer list. -/
theorem toAntreaPeerForCRD_cidr_peer_local_witness :
    peerLoop cidrParseCx refResolverCx "default" {}
        ([{ fqdn := "a.example.com" }] ++ { ipBlock := some { cidr := "not-a-cidr" } }
          :: [{ ipBlock := some { cidr := "10.0.0.0/8" } }])
      = peerLoop cidrParseCx refResolverCx "default" {}
          ([{ fqdn := "a.example.com" }] ++ [{ ipBlock := some { cidr := "10.0.0.0/8" } }]) ∧
    peerLoop cidrParseCx refResolverCx "default" {}
        ({ ipBlock := some { cidr := "10.0.0.0/8" } } :: [{ fqdn := "a.example.com" }])
      = ({ (peerLoop cidrParseCx refResolverCx "default" {}
              [{ fqdn := "a.example.com" }]).1 with
            ipBlocks := { cidr := { ip := 167772160, prefixLength := 8 }, except := [] }
              :: (peerLoop cidrParseCx refResolverCx "default" {}
                    [{ fqdn := "a.example.com" }]).1.ipBlocks },
         (peerLoop cidrParseCx refResolverCx "default" {}
            [{ fqdn := "a.example.com" }]).2) ∧
    ([{ fqdn := "a.example.com" }] ≠ ([] : List NetworkPolicyPeer) →
      toAntreaPeerForCRD cidrParseCx refResolverCx {} [{ fqdn := "a.example.com" }]
          { nspace := "default", name := "np" } Direction.directionIn false
        = assemblePeer (peerLoop cidrParseCx refResolverCx "default" {}
            [{ fqdn := "a.example.com" }])) := by
  have h := toAntreaPeerForCRD_cidr_peer_local cidrParseCx refResolverCx {}
    { nspace := "default", name := "np" } Direction.directionIn false
    { cidr := "not-a-cidr" } { cidr := "10.0.0.0/8" }
    { ip := 167772160, prefixLength := 8 }
    [{ fqdn := "a.example.com" }] [{ ipBlock := some { cidr := "10.0.0.0/8" } }]
    [{ fqdn := "a.example.com" }] [{ fqdn := "a.example.com" }]
    (by simp [cidrParseCx]) (by simp [cidrParseCx])
  exact ⟨h.1, h.2.1, fun _ => h.2.2 (by simp)⟩

lemma namespacedPeerLoop_congr (nspace : String) :
    ∀ (peers peers2 : List NetworkPolicyPeer) (st : ControllerState),
      peers.map (fun p => (p.podSelector, p.externalEntitySelector))
        = peers2.map (fun p => (p.podSelector, p.externalEntitySelector)) →
      namespacedPeerLoop nspace st peers = namespacedPeerLoop nspace st peers2 := by
  intro peers
  induction peers with
  | nil =>
      intro peers2 st h
      cases peers2 with
      | nil => rfl
      | cons q r => simp at h
  | cons p rest ih =>
      intro peers2 st h
      cases peers2 with
      | nil => simp at h
      | cons q r =>
          simp only [List.map_cons, List.cons.injEq, Prod.mk.injEq] at h
          obtain ⟨⟨h1, h2⟩, h3⟩ := h
          simp only [namespacedPeerLoop, h1, h2]
          rw [ih r _ h3]

lemma namespacedPeerLoop_keys (nspace : String) :
    ∀ (peers : List NetworkPolicyPeer) (st : ControllerState),
      (namespacedPeerLoop nspace st peers).1
        = peers.map (fun p => normalizedKeyOf
            { nspace := nspace
              podSelector := p.podSelector
              externalEntitySelector := p.externalEntitySelector }) := by
  intro peers
  induction peers with
  | nil => intro st; simp [namespacedPeerLoop]
  | cons p rest ih =>
      intro st
      simp [namespacedPeerLoop, createAddressGroup_key, ih]

/-- C9: `toNamespacedPeerForCRD` resolves only the pod-selector and external-entity
selector of each peer against the single explicit namespace — its result is unchanged
under any modification of the peers' namespace-selector, service-account and node-selector
(and other) fields — and each peer's key is exactly the one handed out by the shared
get-or-create `createAddressGroup` for (namespace, podSelector, externalEntitySelector);
no IPBlocks or FQDNs are produced. -/
theorem toNamespacedPeerForCRD_strips_selectors (st : ControllerState)
    (peers peers2 : List NetworkPolicyPeer) (nspace : String)
    (h : peers.map (fun p => (p.podSelector, p.externalEntitySelector))
           = peers2.map (fun p => (p.podSelector, p.externalEntitySelector))) :
    toNamespacedPeerForCRD st peers nspace = toNamespacedPeerForCRD st peers2 nspace ∧
    (toNamespacedPeerForCRD st peers nspace).1.addressGroups
        = peers.map (fun p =>
            (createAddressGroup st nspace p.podSelector none
              p.externalEntitySelector none).1) ∧
    (toNamespacedPeerForCRD st peers nspace).1.ipBlocks = [] ∧
    (toNamespacedPeerForCRD st peers nspace).1.fqdns = [] := by
  refine ⟨?_, ?_, rfl, rfl⟩
  · unfold toNamespacedPeerForCRD
    rw [namespacedPeerLoop_congr nspace peers peers2 st h]
  · unfold toNamespacedPeerForCRD
    simp [namespacedPeerLoop_keys, createAddressGroup_key]

/-- Witness for C9: a peer carrying a node selector and a service account resolves exactly
as the default peer with the same (absent) pod/external-entity selectors. -/
theorem toNamespacedPeerForCRD_strips_selectors_witness :
    toNamespacedPeerForCRD {}
        [{ nodeSelector := some {}, serviceAccount := some { nspace := "x", name := "sa" } }]
        "ns1"
      = toNamespacedPeerForCRD {} [{}] "ns1" ∧
    (toNamespacedPeerForCRD {}
        [{ nodeSelector := some {}, serviceAccount := some { nspace := "x", name := "sa" } }]
        "ns1").1.addressGroups
      = [{ nodeSelector := some {},
           serviceAccount := some { nspace := "x", name := "sa" } }].map
          (fun p : NetworkPolicyPeer =>
            (createAddressGroup {} "ns1" p.podSelector none p.externalEntitySelector none).1) ∧
    (toNamespacedPeerForCRD {}
        [{ nodeSelector := some {}, serviceAccount := some { nspace := "x", name := "sa" } }]
        "ns1").1.ipBlocks = [] ∧
    (toNamespacedPeerForCRD {}
        [{ nodeSelector := some {}, serviceAccount := some { nspace := "x", name := "sa" } }]
        "ns1").1.fqdns = [] :=
  toNamespacedPeerForCRD_strips_selectors {}
    [{ nodeSelector := some {}, serviceAccount := some { nspace := "x", name := "sa" } }]
    [{}] "ns1" rfl

lemma char_toNat_ofNat_valid (n : Nat) (h : n.isValidChar) : (Char.ofNat n).toNat = n := by
  unfold Char.ofNat
  rw [dif_pos h]
  rfl

lemma char_toLower_idem (c : Char) : c.toLower.toLower = c.toLower := by
  unfold Char.toLower
  by_cases h : c.toNat ≥ 65 ∧ c.toNat ≤ 90
  · rw [if_pos h]
    have hv : (c.toNat + 32).isValidChar := Or.inl (by omega)
    rw [char_toNat_ofNat_valid _ hv, if_neg (by omega)]
  · rw [if_neg h, if_neg h]

lemma string_toLower_idem (s : String) : s.toLower.toLower = s.toLower := by
  have hf : Char.toLower ∘ Char.toLower = Char.toLower := funext char_toLower_idem
  simp [String.toLower, String.map_eq, List.map_map, hf]

lemma string_toLower_ne_empty (s : String) (h : s ≠ "") : s.toLower ≠ "" := by
  intro hc
  apply h
  have hd : s.toLower.data = [] := by rw [hc]
  rw [String.toLower, String.map_eq] at hd
  simp only [List.map_eq_nil_iff] at hd
  cases s with
  | mk data =>
      simp only at hd
      rw [hd]

/-- C6 counterexample: with a static-tier set holding the legacy name "Emergency" and a
tier lister knowing only the lower-case "emergency" tier (priority 5), the upper-case
variant "EMERGENCY" is not looked up via its lower-case form: it misses and falls back to
the default priority, which differs from the priority of its canonical lower-case form.
The static-set membership check is case-sensitive, so "in any letter case" fails. -/
theorem getTierPriority_anyCase_cx :
    getTierPriority ["Emergency"] tierListerCx "EMERGENCY"
      ≠ getTierPriority ["Emergency"] tierListerCx "emergency" := by
  decide

/-- C6 (amended): `getTierPriority` returns the default priority for the empty tier name;
for a tier name that is an exact (case-sensitive) member of the legacy static-tier set it
returns the same priority as its canonical lower-case form; and on any tier-lookup miss it
returns the default priority (being total, it never propagates an error). -/
theorem getTierPriority_correct (staticTierSet : List String)
    (tierLister : String → Option Tier) (tier : String) :
    (tier = "" → getTierPriority staticTierSet tierLister tier = DefaultTierPriority) ∧
    (tier ∈ staticTierSet →
      getTierPriority staticTierSet tierLister tier
        = getTierPriority staticTierSet tierLister tier.toLower) ∧
    (tier ≠ "" →
      tierLister (if tier ∈ staticTierSet then tier.toLower else tier) = none →
      getTierPriority staticTierSet tierLister tier = DefaultTierPriority) := by
  refine ⟨?_, ?_, ?_⟩
  · intro h
    simp [getTierPriority, h]
  · intro hmem
    by_cases he : tier = ""
    · have hlo0 : ("" : String).toLower = "" := by
        rw [String.toLower, String.map_eq]
        rfl
      subst he
      rw [hlo0]
    · have hlo : tier.toLower ≠ "" := string_toLower_ne_empty tier he
      by_cases hmem2 : tier.toLower ∈ staticTierSet
      · simp [getTierPriority, he, hlo, hmem, hmem2, string_toLower_idem]
      · simp [getTierPriority, he, hlo, hmem, hmem2]
  · intro he hmiss
    simp only [getTierPriority, if_neg he]
    rw [hmiss]

/-- Witness for C6 at concrete set, lister and tiers, discharging each hypothesis. -/
theorem getTierPriority_correct_witness :
    getTierPriority ["Emergency"] tierListerCx "" = DefaultTierPriority ∧
    getTierPriority ["Emergency"] tierListerCx "Emergency"
      = getTierPriority ["Emergency"] tierListerCx "Emergency".toLower ∧
    getTierPriority ["Emergency"] tierListerCx "Unknown" = DefaultTierPriority :=
  ⟨(getTierPriority_correct ["Emergency"] tierListerCx "").1 rfl,
   (getTierPriority_correct ["Emergency"] tierListerCx "Emergency").2.1 (by decide),
   (getTierPriority_correct ["Emergency"] tierListerCx "Unknown").2.2 (by decide) (by decide)⟩

end AntreaNP
